import Mathlib

/-!
Verification development for the ProofSnap repository: the trust score
engine, the grade mapping, the ledger anchor client, the MediaProof
ledger contract, the originality oracle client, the content hasher, and
the verification pipeline orchestrator, shallowly embedded from the
TypeScript / Solidity / JavaScript sources.

Conventions of the embedding:
- JavaScript numbers that only ever hold probability-like or percentage
  values are modelled as rationals; the trust score itself is modelled as
  an integer because every operation applied to it in the source
  subtracts or adds an integer constant, so Math.round at the end is the
  identity.
- Fallible asynchronous calls are modelled as Except values: an Except
  error corresponds to a thrown or rejected promise, an ok value to a
  resolved one.
- Collaborator services that live outside the repository (the SHA-256
  digest primitive of expo-crypto, the network, the secure store) are
  modelled as explicit parameters of the embedded functions.
-/

namespace ProofSnap

/-- Letter grades, from constants/Colors.ts GRADES. -/
inductive Grade where
  | S | A | B | C | F
deriving DecidableEq, Repr

/-- getGrade from constants/Colors.ts: thresholds 95 / 80 / 60 / 40. -/
def getGrade (score : ℤ) : Grade :=
  if score ≥ 95 then .S
  else if score ≥ 80 then .A
  else if score ≥ 60 then .B
  else if score ≥ 40 then .C
  else .F

/-- The factors record consumed by computeTrustScore (trust-score.ts). -/
structure TrustFactors where
  hashVerified : Bool
  signatureValid : Bool
  blockchainAnchored : Bool
  deepfakeScore : ℚ
  aiGeneratedScore : ℚ
  plagiarismScore : ℚ
  hasMetadata : Bool
deriving Repr

/-- TrustScoreResult from lib/types.ts. -/
structure TrustScoreResult where
  score : ℤ
  grade : Grade
  factors : TrustFactors
deriving Repr

/-- computeTrustScore from trust-score.ts, translated statement by
statement; each let rebinding mirrors one mutation of the score
variable.  Math.round of the final score is the identity because the
score is integer-valued throughout. -/
def computeTrustScore (factors : TrustFactors) : TrustScoreResult :=
  let score : ℤ := 100
  -- Cryptographic integrity (most important)
  let score := if !factors.hashVerified then score - 50 else score
  let score := if !factors.signatureValid then score - 30 else score
  -- Blockchain anchoring
  let score := if !factors.blockchainAnchored then score - 10 else score
  -- AI analysis penalties
  let score :=
    if factors.deepfakeScore > 0.7 then score - 40
    else if factors.deepfakeScore > 0.4 then score - 20
    else if factors.deepfakeScore > 0.2 then score - 5
    else score
  let score :=
    if factors.aiGeneratedScore > 0.7 then score - 30
    else if factors.aiGeneratedScore > 0.4 then score - 15
    else if factors.aiGeneratedScore > 0.2 then score - 3
    else score
  -- Plagiarism penalty
  let score :=
    if factors.plagiarismScore > 50 then score - 20
    else if factors.plagiarismScore > 30 then score - 10
    else score
  -- Metadata bonus
  let score := if factors.hasMetadata then min 100 (score + 2) else score
  -- Clamp
  let score := max 0 (min 100 score)
  { score := score, grade := getGrade score, factors := factors }

/-! ### Reference algorithm, written from the words of spec section 4.6
(to be compared with the source translation above). -/

/-- Spec 4.6 step 3: synthetic-face score tiers. -/
def specSyntheticPenalty (q : ℚ) : ℤ :=
  if q > 0.7 then 40 else if q > 0.4 then 20 else if q > 0.2 then 5 else 0

/-- Spec 4.6 step 4: generative-origin score tiers. -/
def specGenerativePenalty (q : ℚ) : ℤ :=
  if q > 0.7 then 30 else if q > 0.4 then 15 else if q > 0.2 then 3 else 0

/-- Spec 4.6 step 5: duplication tiers. -/
def specDuplicationPenalty (q : ℚ) : ℤ :=
  if q > 50 then 20 else if q > 30 then 10 else 0

/-- Spec 4.6 steps 1-5: additive penalties starting from 100. -/
def specRawScore (f : TrustFactors) : ℤ :=
  100 - (if f.hashVerified then 0 else 50)
      - (if f.signatureValid then 0 else 30)
      - (if f.blockchainAnchored then 0 else 10)
      - specSyntheticPenalty f.deepfakeScore
      - specGenerativePenalty f.aiGeneratedScore
      - specDuplicationPenalty f.plagiarismScore

/-- Spec 4.6 step 6: +2 bonus if metadata present, capped at 100. -/
def specBonusScore (f : TrustFactors) : ℤ :=
  if f.hasMetadata then min 100 (specRawScore f + 2) else specRawScore f

/-- Spec 4.6 step 7: clamp to the interval from 0 to 100. -/
def specClampedScore (f : TrustFactors) : ℤ :=
  max 0 (min 100 (specBonusScore f))

/-- Spec 4.6 grade mapping, evaluated high to low. -/
def specGrade (score : ℤ) : Grade :=
  if score ≥ 95 then .S
  else if score ≥ 80 then .A
  else if score ≥ 60 then .B
  else if score ≥ 40 then .C
  else .F

/-- Full reference trust-score algorithm of spec section 4.6. -/
def specTrustScore (f : TrustFactors) : ℤ × Grade :=
  (specClampedScore f, specGrade (specClampedScore f))

/-! ### Ledger anchor client (lib/blockchain.ts) -/

/-- A single-character string holding the apostrophe (code point 39). -/
def apostrophe : String := String.singleton (Char.ofNat 39)

/-- Whether the first list is an initial segment of the second. -/
def leadsWith : List Char → List Char → Bool
  | [], _ => true
  | _ :: _, [] => false
  | p :: ps, c :: cs => p == c && leadsWith ps cs

/-- Whether pat occurs as a contiguous sublist. -/
def containsSub (pat : List Char) : List Char → Bool
  | [] => leadsWith pat []
  | c :: cs => leadsWith pat (c :: cs) || containsSub pat cs

/-- JavaScript String.prototype.includes. -/
def stringIncludes (s pat : String) : Bool := containsSub pat.data s.data

/-- The three substring tests of the catch block of anchorProof
(blockchain.ts lines 141-145); the second phrase contains an
apostrophe. -/
def isInsufficientFundsMessage (msg : String) : Bool :=
  stringIncludes msg "insufficient funds" ||
  stringIncludes msg ("doesn" ++ apostrophe ++ "t have enough funds") ||
  stringIncludes msg "insufficient balance"

/-- DATAHAVEN_FAUCET from constants/config.ts. -/
def DATAHAVEN_FAUCET : String := "https://apps.datahaven.xyz/faucet"

/-- The message of the Error thrown by anchorProof when the underlying
failure is an insufficient-funds one (blockchain.ts lines 146-148). -/
def insufficientFundsError : String :=
  "Insufficient MOCK tokens for gas.\nGet free tokens from the faucet:\n" ++ DATAHAVEN_FAUCET

/-- The mined-transaction value anchorProof resolves with. -/
structure TxResult where
  txHash : String
  blockNumber : ℤ
deriving Repr, DecidableEq

/-- Outcome of the awaited ledger interaction inside the try block of
anchorProof: either the transaction is mined, or some await in the body
rejects with an error message (network failure, contract revert,
insufficient balance, ...). -/
inductive LedgerCallOutcome where
  | mined (txHash : String) (blockNumber : ℤ)
  | failed (message : String)
deriving Repr, DecidableEq

/-- anchorProof from lib/blockchain.ts lines 96-153: resolves with the
receipt on success; in the catch block it re-throws a faucet-advice
Error when the message matches an insufficient-funds pattern, and
resolves with null on every other failure.  An Except error models a
rejected promise. -/
def anchorProof (outcome : LedgerCallOutcome) : Except String (Option TxResult) :=
  match outcome with
  | .mined h n => .ok (some ⟨h, n⟩)
  | .failed msg =>
    if isInsufficientFundsMessage msg then .error insufficientFundsError
    else .ok none

/-! ### MediaProof ledger contract (MediaProof.sol) -/

namespace MediaProof

/-- The Proof struct of the contract. -/
structure Proof where
  fileHash : ℕ
  signature : String
  publicKey : String
  submitter : String
  timestamp : ℕ
  blockNumber : ℕ
deriving Repr

/-- Contract storage: the proofs mapping (total, defaulting to the
all-zero struct like a Solidity mapping) and the proofHashes array. -/
structure State where
  proofs : ℕ → Proof
  proofHashes : List ℕ

/-- The default value of a Solidity mapping entry. -/
def emptyProof : Proof := ⟨0, "", "", "", 0, 0⟩

/-- Storage of a freshly deployed contract. -/
def initialState : State := ⟨fun _ => emptyProof, []⟩

/-- MediaProof.anchorProof (MediaProof.sol lines 51-71): requires a
nonzero hash and no existing proof for it, then records the proof.  An
Except error models a require revert, with its reason string. -/
def anchorProof (st : State) (fileHash : ℕ) (sig pub sender : String)
    (blockTimestamp blockNumber : ℕ) : Except String State :=
  if fileHash = 0 then .error "Invalid file hash"
  else if (st.proofs fileHash).timestamp ≠ 0 then .error "Proof already exists"
  else .ok
    { proofs := fun h =>
        if h = fileHash then
          { fileHash := fileHash, signature := sig, publicKey := pub,
            submitter := sender, timestamp := blockTimestamp, blockNumber := blockNumber }
        else st.proofs h
      proofHashes := st.proofHashes ++ [fileHash] }

/-- MediaProof.proofExists. -/
def proofExists (st : State) (fileHash : ℕ) : Bool :=
  (st.proofs fileHash).timestamp ≠ 0

/-- MediaProof.getProofCount. -/
def getProofCount (st : State) : ℕ := st.proofHashes.length

end MediaProof

/-! ### Originality oracle client (lib/watermark.ts) and its backend
endpoint (server/index.js) -/

/-- PlagiarismResult from lib/types.ts. -/
structure PlagiarismResult where
  isOriginal : Bool
  matchPercentage : ℚ
  sources : List String
  simulated : Bool
deriving Repr

/-- One entry of the matches array of the plagiarism endpoint. -/
structure PlagMatch where
  source : String
  similarity : ℚ
  url : String
deriving Repr

/-- The JSON fields of a 2xx response body that checkPlagiarism reads;
an Option none models an absent field. -/
structure PlagiarismResponseData where
  isOriginal : Option Bool
  plagiarismScore : Option ℚ
  matchPercentage : Option ℚ
  -- the source field is named matches; that word is reserved in Lean
  matches' : Option (List PlagMatch)
  simulated : Option Bool
deriving Repr

/-- The 2xx branch of checkPlagiarism (watermark.ts lines 149-157): the
client copies isOriginal and the match percentage from the response
body, falling back to true and 0. -/
def checkPlagiarismOnResponse (data : PlagiarismResponseData) : PlagiarismResult :=
  { isOriginal := data.isOriginal.getD true
    matchPercentage := data.plagiarismScore.getD (data.matchPercentage.getD 0)
    sources := (data.matches'.getD []).map (·.source)
    simulated := data.simulated == some true }

/-- simulatePlagiarism (watermark.ts lines 165-172); the parameter
models the Math.random() draw in the interval from 0 inclusive to 1
exclusive. -/
def simulatePlagiarism (random : ℚ) : PlagiarismResult :=
  { isOriginal := true
    matchPercentage := ((⌊random * 5⌋ : ℤ) : ℚ)
    sources := []
    simulated := true }

/-- Outcome of the upload to the oracle endpoint: a parsed 2xx body, or
any failure (empty input, timeout, transport error, non-2xx status). -/
inductive OracleCall (α : Type) where
  | ok (data : α)
  | failed
deriving Repr

/-- checkPlagiarism from lib/watermark.ts lines 120-163: processes a
2xx body, and falls back to the simulated result on every failure. -/
def checkPlagiarism (call : OracleCall PlagiarismResponseData) (random : ℚ) :
    PlagiarismResult :=
  match call with
  | .ok data => checkPlagiarismOnResponse data
  | .failed => simulatePlagiarism random

/-- The POST /api/plagiarism handler of server/index.js lines 141-166:
similarityScore is the Math.random() draw times 15; the reported score
is Math.round of it (round in Mathlib rounds halves up exactly like
Math.round) while the isOriginal flag compares the unrounded value
with 20. -/
def serverPlagiarismResponse (random : ℚ) (checkId : String) : PlagiarismResponseData :=
  let similarityScore := random * 15
  { simulated := some true
    plagiarismScore := some ((round similarityScore : ℤ) : ℚ)
    isOriginal := some (decide (similarityScore < 20))
    matches' := some (if similarityScore > 10 then
        [{ source := "stock-photos.example.com",
           similarity := ((round similarityScore : ℤ) : ℚ),
           url := "https://example.com/image/" ++ checkId }]
      else [])
    matchPercentage := none }

/-! ### Content hasher (lib/crypto.ts) -/

/-- One lowercase hexadecimal digit, as produced by JavaScript
Number.prototype.toString with radix 16. -/
def hexDigitChar (n : ℕ) : Char :=
  if n < 10 then Char.ofNat (48 + n) else Char.ofNat (87 + n)

/-- b.toString(16).padStart(2, the zero digit) for a byte b. -/
def byteToHex (b : ℕ) : String :=
  String.mk [hexDigitChar (b / 16 % 16), hexDigitChar (b % 16)]

/-- uint8ArrayToHex from lib/crypto.ts lines 17-21. -/
def uint8ArrayToHex (arr : List ℕ) : String :=
  String.join (arr.map byteToHex)

/-- hashMediaFile from lib/crypto.ts lines 80-112.  The SHA-256
primitive of expo-crypto is an external collaborator, passed as the
digest parameter; both the primary path and the fallback path read the
same raw bytes and apply the same digest, differing only in which
attempt succeeded. -/
def hashMediaFile (digest : List ℕ → List ℕ) (primaryPathOk : Bool)
    (bytes : List ℕ) : String :=
  if primaryPathOk then uint8ArrayToHex (digest bytes)
  else uint8ArrayToHex (digest bytes)

/-- A lowercase hexadecimal character. -/
def isLowerHexDigit (c : Char) : Bool :=
  (decide (Char.ofNat 48 ≤ c) && decide (c ≤ Char.ofNat 57)) ||
  (decide (Char.ofNat 97 ≤ c) && decide (c ≤ Char.ofNat 102))

/-! ### Verification pipeline orchestrator (lib/verification-pipeline.ts) -/

/-- The status of one VerificationStep (lib/types.ts). -/
inductive StepStatus where
  | waiting | running | success | error
deriving DecidableEq, Repr

/-- VerificationStep from lib/types.ts. -/
structure VerificationStep where
  id : String
  label : String
  status : StepStatus
  detail : Option String
deriving Repr

/-- createSteps from the pipeline module: the eight pipeline steps, all
waiting. -/
def createSteps : List VerificationStep :=
  [ { id := "hash", label := "Generating cryptographic hash", status := .waiting, detail := none },
    { id := "sign", label := "Signing with device key", status := .waiting, detail := none },
    { id := "blockchain", label := "Anchoring on DataHaven", status := .waiting, detail := none },
    { id := "ai", label := "AI deepfake analysis", status := .waiting, detail := none },
    { id := "plagiarism", label := "Checking originality", status := .waiting, detail := none },
    { id := "trust", label := "Computing trust score", status := .waiting, detail := none },
    { id := "watermark", label := "Applying watermark", status := .waiting, detail := none },
    { id := "cloud", label := "Syncing to Supabase cloud", status := .waiting, detail := none } ]

/-- updateStep from the pipeline module: replace status and detail of
the step with the given id. -/
def updateStep (steps : List VerificationStep) (stepId : String)
    (status : StepStatus) (detail : Option String) : List VerificationStep :=
  steps.map fun s => if s.id = stepId then { s with status := status, detail := detail } else s

/-- File kind of a capture. -/
inductive FileType where
  | image | video
deriving DecidableEq, Repr

/-- VerificationStatus from lib/types.ts. -/
inductive RecordStatus where
  | pending | verifying | verified | failed
deriving DecidableEq, Repr

/-- AIDetectionResult from lib/types.ts. -/
structure AIDetectionResult where
  deepfakeScore : ℚ
  aiGeneratedScore : ℚ
  isGenuine : Bool
  simulated : Bool
deriving Repr

/-- MediaRecord from lib/types.ts plus the imageUrl field the pipeline
and the cloud sync module use. -/
structure MediaRecord where
  id : String
  fileUri : String
  fileName : String
  fileType : FileType
  fileSize : ℤ
  fileHash : String
  signature : String
  publicKey : String
  timestamp : ℤ
  blockchainTx : Option String
  blockNumber : Option ℤ
  aiDeepfakeScore : ℚ
  aiGeneratedScore : ℚ
  plagiarismScore : ℚ
  trustScore : ℤ
  trustGrade : Grade
  watermarkedUri : Option String
  imageUrl : Option String
  status : RecordStatus
  deviceInfo : String
  location : Option String
  createdAt : String
  updatedAt : String
deriving Repr

/-- A call to the persistence collaborator: insertMediaRecord, a
full-record updateMediaRecord, or the partial status-only update of the
catch block.  Persistence is modelled as non-throwing, per the storage
upsert contract of spec section 6. -/
inductive DbWrite where
  | insert (record : MediaRecord)
  | update (id : String) (record : MediaRecord)
  | updateStatus (id : String) (status : RecordStatus)

/-- Everything one observes of a pipeline run: the returned or thrown
value, the sequence of persistence calls, and the step-list snapshots
passed to the onProgress observer, in order. -/
structure PipelineOutput where
  result : Except String MediaRecord
  dbWrites : List DbWrite
  snapshots : List (List VerificationStep)

/-- Results of every awaited collaborator call of one pipeline run, in
the order the run would issue them.  An Except error is a rejected
promise with its message. -/
structure PipelineEnv where
  fileUri : String
  fileType : FileType
  fileSize : ℤ
  /-- the generated time-based plus random-suffix id -/
  recordId : String
  /-- ISO timestamp taken at pipeline start -/
  startedAt : String
  /-- ISO timestamp taken at the final (or failure) record update -/
  finishedAt : String
  /-- Date.now() at pipeline start -/
  timestamp : ℤ
  /-- platform descriptor string -/
  deviceInfo : String
  /-- hashMediaFile(fileUri) -/
  hashCall : Except String String
  /-- signData(fileHash) -/
  signCall : Except String String
  /-- getPublicKey() -/
  publicKeyCall : Except String (Option String)
  /-- anchorProof(fileHash, signature, publicKey); throwing is caught
  by the pipeline and only fails the blockchain step -/
  anchorCall : Except String (Option TxResult)
  /-- the base64 read of the file for an image; its failure is
  swallowed by an empty catch -/
  imageBase64Call : Except String String
  /-- detectDeepfake(imageBase64); that client resolves on every path -/
  aiResult : AIDetectionResult
  /-- checkPlagiarism(imageBase64); that client resolves on every path -/
  plagResult : PlagiarismResult
  /-- applyVisibleWatermark(...), which catches internally and always
  resolves with a uri -/
  watermarkCall : String
  /-- generateInvisibleWatermarkId() -/
  invisibleWatermarkId : String
  /-- uploadThumbnailToStorage(...); a rejection is caught and logged -/
  thumbnailCall : Except String (Option String)
  /-- uploadProofToSupabase(record), which resolves with a boolean -/
  cloudSyncCall : Bool

/-- The characters of a uri after its last slash: the last element of
uri.split(slash). -/
def lastUriSegment (uri : String) : String :=
  String.mk (uri.data.foldl (fun acc c => if c = '/' then [] else acc ++ [c]) [])

/-- Approximation of JavaScript number-to-string interpolation for the
detail strings (never inspected by any theorem). -/
def ratToString (q : ℚ) : String := toString q

/-- Approximation of toFixed(0) (never inspected by any theorem). -/
def toFixed0 (q : ℚ) : String := toString (round q)

/-- The letter of a grade. -/
def gradeToString : Grade → String
  | .S => "S" | .A => "A" | .B => "B" | .C => "C" | .F => "F"

/-- The initial record the pipeline inserts before any stage runs:
numeric fields zeroed, status verifying. -/
def initialRecord (env : PipelineEnv) : MediaRecord :=
  let seg := lastUriSegment env.fileUri
  { id := env.recordId
    fileUri := env.fileUri
    fileName := if seg = "" then "capture_" ++ toString env.timestamp else seg
    fileType := env.fileType
    fileSize := env.fileSize
    fileHash := ""
    signature := ""
    publicKey := ""
    timestamp := env.timestamp
    blockchainTx := none
    blockNumber := none
    aiDeepfakeScore := 0
    aiGeneratedScore := 0
    plagiarismScore := 0
    trustScore := 0
    trustGrade := .F
    watermarkedUri := none
    imageUrl := none
    status := .verifying
    deviceInfo := env.deviceInfo
    location := none
    createdAt := env.startedAt
    updatedAt := env.startedAt }

/-- The factors literal the pipeline passes to computeTrustScore:
hashVerified, signatureValid and hasMetadata are the literal true. -/
def pipelineTrustFactors (anchored : Bool) (ai : AIDetectionResult)
    (plag : PlagiarismResult) : TrustFactors :=
  { hashVerified := true
    signatureValid := true
    blockchainAnchored := anchored
    deepfakeScore := ai.deepfakeScore
    aiGeneratedScore := ai.aiGeneratedScore
    plagiarismScore := plag.matchPercentage
    hasMetadata := true }

/-- The catch block of runVerificationPipeline: persist the status-only
failed update and re-throw the error. -/
def pipelineFailure (env : PipelineEnv) (e : String) (writes : List DbWrite)
    (snaps : List (List VerificationStep)) : PipelineOutput :=
  { result := .error e
    dbWrites := writes ++ [.updateStatus env.recordId .failed]
    snapshots := snaps }

/-- The value of the bcResult variable of the pipeline: the resolved
anchor value, or null when anchorProof threw and was caught. -/
def bcResultOf (anchorCall : Except String (Option TxResult)) : Option TxResult :=
  match anchorCall with
  | .ok r => r
  | .error _ => none

/-- The trustResult the pipeline computes in its trust stage. -/
def pipelineTrustResult (anchorCall : Except String (Option TxResult))
    (ai : AIDetectionResult) (plag : PlagiarismResult) : TrustScoreResult :=
  computeTrustScore (pipelineTrustFactors (bcResultOf anchorCall).isSome ai plag)

/-! The sixteen successive values of the steps variable of
runVerificationPipeline, one definition per updateStep call of the
source, each parameterized by the collaborator results its detail or
status reads.  The snapshot delivered to onProgress after the N-th
updateStep call is exactly stepsN. -/

/-- steps after: hash running. -/
def steps1 : List VerificationStep :=
  updateStep createSteps "hash" .running none

/-- steps after: hash success, detail a digest prefix. -/
def steps2 (fileHash : String) : List VerificationStep :=
  updateStep steps1 "hash" .success (some (fileHash.take 12 ++ "..."))

/-- steps after: sign running. -/
def steps3 (fileHash : String) : List VerificationStep :=
  updateStep (steps2 fileHash) "sign" .running none

/-- steps after: sign success. -/
def steps4 (fileHash : String) : List VerificationStep :=
  updateStep (steps3 fileHash) "sign" .success (some "Signed ✓")

/-- steps after: blockchain running. -/
def steps5 (fileHash : String) : List VerificationStep :=
  updateStep (steps4 fileHash) "blockchain" .running none

/-- steps after: blockchain success or error, depending on the caught
outcome of anchorProof. -/
def steps6 (fileHash : String) (anchorCall : Except String (Option TxResult)) :
    List VerificationStep :=
  match anchorCall with
  | .ok (some tx) =>
      updateStep (steps5 fileHash) "blockchain" .success
        (some ("Tx: " ++ tx.txHash.take 10 ++ "..."))
  | .ok none =>
      updateStep (steps5 fileHash) "blockchain" .error (some "Failed - will retry")
  | .error e =>
      updateStep (steps5 fileHash) "blockchain" .error (some e)

/-- steps after: ai running. -/
def steps7 (fileHash : String) (anchorCall : Except String (Option TxResult)) :
    List VerificationStep :=
  updateStep (steps6 fileHash anchorCall) "ai" .running none

/-- steps after: ai error when the result is simulated, success
otherwise. -/
def steps8 (fileHash : String) (anchorCall : Except String (Option TxResult))
    (ai : AIDetectionResult) : List VerificationStep :=
  updateStep (steps7 fileHash anchorCall) "ai"
    (if ai.simulated then .error else .success)
    (some (if ai.simulated then "Simulated — API unavailable"
      else if ai.isGenuine then "Genuine ✓"
      else "Suspicious (" ++ toFixed0 (ai.deepfakeScore * 100) ++ "%)"))

/-- steps after: plagiarism running. -/
def steps9 (fileHash : String) (anchorCall : Except String (Option TxResult))
    (ai : AIDetectionResult) : List VerificationStep :=
  updateStep (steps8 fileHash anchorCall ai) "plagiarism" .running none

/-- steps after: plagiarism error when simulated, success otherwise. -/
def steps10 (fileHash : String) (anchorCall : Except String (Option TxResult))
    (ai : AIDetectionResult) (plag : PlagiarismResult) : List VerificationStep :=
  updateStep (steps9 fileHash anchorCall ai) "plagiarism"
    (if plag.simulated then .error else .success)
    (some (if plag.simulated then "Simulated — API unavailable"
      else if plag.isOriginal then "Original ✓"
      else ratToString plag.matchPercentage ++ "% match"))

/-- steps after: trust running. -/
def steps11 (fileHash : String) (anchorCall : Except String (Option TxResult))
    (ai : AIDetectionResult) (plag : PlagiarismResult) : List VerificationStep :=
  updateStep (steps10 fileHash anchorCall ai plag) "trust" .running none

/-- steps after: trust success with the score and grade in the detail. -/
def steps12 (fileHash : String) (anchorCall : Except String (Option TxResult))
    (ai : AIDetectionResult) (plag : PlagiarismResult) : List VerificationStep :=
  updateStep (steps11 fileHash anchorCall ai plag) "trust" .success
    (some ("Score: " ++ toString (pipelineTrustResult anchorCall ai plag).score ++
      " (Grade " ++ gradeToString (pipelineTrustResult anchorCall ai plag).grade ++ ")"))

/-- steps after: watermark running. -/
def steps13 (fileHash : String) (anchorCall : Except String (Option TxResult))
    (ai : AIDetectionResult) (plag : PlagiarismResult) : List VerificationStep :=
  updateStep (steps12 fileHash anchorCall ai plag) "watermark" .running none

/-- steps after: watermark success with the invisible watermark id. -/
def steps14 (fileHash : String) (anchorCall : Except String (Option TxResult))
    (ai : AIDetectionResult) (plag : PlagiarismResult) (wmId : String) :
    List VerificationStep :=
  updateStep (steps13 fileHash anchorCall ai plag) "watermark" .success
    (some ("ID: " ++ wmId))

/-- steps after: cloud running. -/
def steps15 (fileHash : String) (anchorCall : Except String (Option TxResult))
    (ai : AIDetectionResult) (plag : PlagiarismResult) (wmId : String) :
    List VerificationStep :=
  updateStep (steps14 fileHash anchorCall ai plag wmId) "cloud" .running none

/-- steps after: cloud success or error, from the sync boolean. -/
def steps16 (fileHash : String) (anchorCall : Except String (Option TxResult))
    (ai : AIDetectionResult) (plag : PlagiarismResult) (wmId : String)
    (cloudSynced : Bool) : List VerificationStep :=
  updateStep (steps15 fileHash anchorCall ai plag wmId) "cloud"
    (if cloudSynced then .success else .error)
    (some (if cloudSynced then "Synced ✓" else "Local only"))

/-- runVerificationPipeline from the pipeline module, stage by stage.
Every onProgress call of the source contributes one snapshot (the
stepsN definitions above, in order); every persistence call appends one
DbWrite; an uncaught rejection takes the catch-block path of
pipelineFailure. -/
def runVerificationPipeline (env : PipelineEnv) : PipelineOutput :=
  let record0 := initialRecord env
  let writes0 : List DbWrite := [.insert record0]
  -- Step 1: Hash
  match env.hashCall with
  | .error e => pipelineFailure env e writes0 [steps1]
  | .ok fileHash =>
    -- Step 2: Sign (the public key is fetched while the sign step is
    -- still the running one)
    match env.signCall with
    | .error e =>
        pipelineFailure env e writes0 [steps1, steps2 fileHash, steps3 fileHash]
    | .ok signature =>
      match env.publicKeyCall with
      | .error e =>
          pipelineFailure env e writes0 [steps1, steps2 fileHash, steps3 fileHash]
      | .ok publicKeyOpt =>
        let publicKey := publicKeyOpt.getD ""
        -- Steps 3-8 run to completion: anchor rejections are caught
        -- locally, the oracle clients resolve on every path, and the
        -- watermark, thumbnail and cloud collaborators never throw
        -- into the orchestrator.
        let bcResult := bcResultOf env.anchorCall
        let imageBase64 :=
          match env.fileType, env.imageBase64Call with
          | .image, .ok s => s
          | .image, .error _ => ""
          | .video, _ => ""
        let ai := env.aiResult
        let plag := env.plagResult
        let trustResult := pipelineTrustResult env.anchorCall ai plag
        let watermarkedUri : Option String :=
          if env.fileType = .image then some env.watermarkCall else none
        let imageUrl : Option String :=
          if imageBase64 ≠ "" then
            match env.thumbnailCall with
            | .ok (some url) => some url
            | .ok none => none
            | .error _ => none
          else none
        -- Final: Mark verified and persist the full record
        let finalRec : MediaRecord :=
          { record0 with
            fileHash := fileHash
            signature := signature
            publicKey := publicKey
            blockchainTx := bcResult.map (·.txHash)
            blockNumber := bcResult.map (·.blockNumber)
            aiDeepfakeScore := ai.deepfakeScore
            aiGeneratedScore := ai.aiGeneratedScore
            plagiarismScore := plag.matchPercentage
            trustScore := trustResult.score
            trustGrade := trustResult.grade
            watermarkedUri := watermarkedUri
            imageUrl := imageUrl
            status := .verified
            updatedAt := env.finishedAt }
        { result := .ok finalRec
          dbWrites := writes0 ++ [.update env.recordId finalRec]
          snapshots :=
            [steps1, steps2 fileHash, steps3 fileHash, steps4 fileHash,
             steps5 fileHash, steps6 fileHash env.anchorCall,
             steps7 fileHash env.anchorCall, steps8 fileHash env.anchorCall ai,
             steps9 fileHash env.anchorCall ai, steps10 fileHash env.anchorCall ai plag,
             steps11 fileHash env.anchorCall ai plag, steps12 fileHash env.anchorCall ai plag,
             steps13 fileHash env.anchorCall ai plag, steps14 fileHash env.anchorCall ai plag env.invisibleWatermarkId,
             steps15 fileHash env.anchorCall ai plag env.invisibleWatermarkId,
             steps16 fileHash env.anchorCall ai plag env.invisibleWatermarkId env.cloudSyncCall] }

/-- The first rejection among the awaited calls that are not guarded by
a local try/catch (hash, sign, public key), if any: exactly the errors
that reach the catch block of the orchestrator. -/
def firstStageError (env : PipelineEnv) : Option String :=
  match env.hashCall with
  | .error e => some e
  | .ok _ =>
    match env.signCall with
    | .error e => some e
    | .ok _ =>
      match env.publicKeyCall with
      | .error e => some e
      | .ok _ => none

/-! ### Step-trace invariant checkers (for the progress observer) -/

/-- The legal transitions of one step between consecutive snapshots:
stay put, waiting to running, or running to a terminal status.  In
particular nothing ever leaves success or error. -/
def okTransition : StepStatus → StepStatus → Bool
  | .waiting, .waiting => true
  | .waiting, .running => true
  | .running, .running => true
  | .running, .success => true
  | .running, .error => true
  | .success, .success => true
  | .error, .error => true
  | _, _ => false

/-- At most one step of a snapshot is running. -/
def atMostOneRunning (l : List StepStatus) : Bool :=
  (l.filter (fun s => s == .running)).length ≤ 1

/-- Index-wise legal transitions between two snapshots of equal
length. -/
def stepwiseOk : List StepStatus → List StepStatus → Bool
  | [], [] => true
  | a :: as, b :: bs => okTransition a b && stepwiseOk as bs
  | _, _ => false

/-- Every snapshot of the trace has 8 entries and at most one running
step, and every pair of consecutive snapshots is related by legal
transitions only. -/
def traceOk : List (List StepStatus) → Bool
  | [] => true
  | [l] => atMostOneRunning l && (l.length == 8)
  | l1 :: l2 :: rest =>
      atMostOneRunning l1 && (l1.length == 8) && stepwiseOk l1 l2 && traceOk (l2 :: rest)

/-- The statuses of the snapshots delivered to the observer. -/
def statusTrace (out : PipelineOutput) : List (List StepStatus) :=
  out.snapshots.map fun l => l.map fun s => s.status

/-! ### Concrete values used by witnesses -/

/-- A 2xx oracle body claiming originality together with a high match
percentage; the client forwards both unchanged. -/
def c7CounterResponse : PlagiarismResponseData :=
  { isOriginal := some true
    plagiarismScore := some 80
    matchPercentage := none
    matches' := some []
    simulated := some true }

/-- A digest collaborator that returns a fixed 32-byte output. -/
def constDigest : List ℕ → List ℕ := fun _ => List.replicate 32 171

/-- A pipeline environment in which every collaborator call succeeds. -/
def envAllOk : PipelineEnv :=
  { fileUri := "file:///a/b.jpg"
    fileType := .image
    fileSize := 2048
    recordId := "rec1"
    startedAt := "2026-01-01T00:00:00Z"
    finishedAt := "2026-01-01T00:01:00Z"
    timestamp := 1767225600000
    deviceInfo := "android 14"
    hashCall := .ok "aabbccddeeff00112233445566778899aabbccddeeff00112233445566778899"
    signCall := .ok "sig"
    publicKeyCall := .ok (some "pk")
    anchorCall := .ok (some ⟨"0xdeadbeef", 12345⟩)
    imageBase64Call := .ok "ZGF0YQ=="
    aiResult := { deepfakeScore := 0.05, aiGeneratedScore := 0.03, isGenuine := true, simulated := false }
    plagResult := { isOriginal := true, matchPercentage := 3, sources := [], simulated := false }
    watermarkCall := "file:///a/wm_b.jpg"
    invisibleWatermarkId := "PS-XYZ"
    thumbnailCall := .ok (some "https://cdn/img.jpg")
    cloudSyncCall := true }

/-- The same environment except that the signing stage rejects. -/
def envSignFails : PipelineEnv :=
  { envAllOk with signCall := .error "No private key found. Generate keys first." }

/-! ## Theorems -/

/-- Rewriting an if on a negated flag as a penalty subtraction. -/
theorem flag_penalty_if (b : Bool) (s c : ℤ) :
    (if (!b) = true then s - c else s) = s - (if b then 0 else c) := by
  cases b <;> simp

/-- The synthetic-face tier of the source equals the spec tier penalty. -/
theorem synthetic_tier_if (s : ℤ) (q : ℚ) :
    (if q > 0.7 then s - 40 else if q > 0.4 then s - 20 else if q > 0.2 then s - 5 else s)
      = s - specSyntheticPenalty q := by
  unfold specSyntheticPenalty
  split_ifs <;> omega

/-- The generative-origin tier of the source equals the spec tier penalty. -/
theorem generative_tier_if (s : ℤ) (q : ℚ) :
    (if q > 0.7 then s - 30 else if q > 0.4 then s - 15 else if q > 0.2 then s - 3 else s)
      = s - specGenerativePenalty q := by
  unfold specGenerativePenalty
  split_ifs <;> omega

/-- The duplication tier of the source equals the spec tier penalty. -/
theorem duplication_tier_if (s : ℤ) (q : ℚ) :
    (if q > 50 then s - 20 else if q > 30 then s - 10 else s)
      = s - specDuplicationPenalty q := by
  unfold specDuplicationPenalty
  split_ifs <;> omega

/-- The score computed by the source equals the spec reference score. -/
theorem computeTrustScore_score_eq (f : TrustFactors) :
    (computeTrustScore f).score = specClampedScore f := by
  simp only [computeTrustScore, specClampedScore, specBonusScore, specRawScore]
  rw [duplication_tier_if, generative_tier_if, synthetic_tier_if,
    flag_penalty_if, flag_penalty_if, flag_penalty_if]

/-- The grade mapping of the source and of the spec agree. -/
theorem getGrade_eq_specGrade (s : ℤ) : getGrade s = specGrade s := rfl

/-- The grade computed by the source equals the spec reference grade. -/
theorem computeTrustScore_grade_eq (f : TrustFactors) :
    (computeTrustScore f).grade = specGrade (specClampedScore f) := by
  have h := computeTrustScore_score_eq f
  simp only [computeTrustScore] at h ⊢
  rw [h, getGrade_eq_specGrade]

/-- Claim C1: the Trust Score Engine computes exactly the reference
algorithm of spec section 4.6 — the tiered penalties from 100, the
capped metadata bonus, the clamp to the interval from 0 to 100 (the
rounding is the identity on this integer-valued score), and the
S/A/B/C/F grade thresholds 95/80/60/40 — for every input
TrustFactors. -/
theorem trustScore_refines_spec (f : TrustFactors) :
    (computeTrustScore f).score = (specTrustScore f).1 ∧
      (computeTrustScore f).grade = (specTrustScore f).2 :=
  ⟨computeTrustScore_score_eq f, computeTrustScore_grade_eq f⟩

/-- Claim C2: for every TrustFactors input the score lies between 0 and
100, the returned grade is the documented function of the returned
score, and the grade changes exactly at the boundary scores 40, 60, 80
and 95. -/
theorem trustScore_bounded_and_grade_thresholds (f : TrustFactors) :
    (0 ≤ (computeTrustScore f).score ∧ (computeTrustScore f).score ≤ 100 ∧
      (computeTrustScore f).grade = getGrade (computeTrustScore f).score) ∧
    (getGrade 39 = .F ∧ getGrade 40 = .C ∧ getGrade 59 = .C ∧ getGrade 60 = .B ∧
      getGrade 79 = .B ∧ getGrade 80 = .A ∧ getGrade 94 = .A ∧ getGrade 95 = .S) := by
  refine ⟨⟨?_, ?_, ?_⟩, by decide⟩
  · rw [computeTrustScore_score_eq]; unfold specClampedScore; omega
  · rw [computeTrustScore_score_eq]; unfold specClampedScore; omega
  · simp only [computeTrustScore]

/-- The synthetic-face penalty never decreases as the score grows. -/
theorem specSyntheticPenalty_mono {q1 q2 : ℚ} (h : q1 ≤ q2) :
    specSyntheticPenalty q1 ≤ specSyntheticPenalty q2 := by
  unfold specSyntheticPenalty
  split_ifs <;> first | omega | linarith

/-- The generative-origin penalty never decreases as the score grows. -/
theorem specGenerativePenalty_mono {q1 q2 : ℚ} (h : q1 ≤ q2) :
    specGenerativePenalty q1 ≤ specGenerativePenalty q2 := by
  unfold specGenerativePenalty
  split_ifs <;> first | omega | linarith

/-- The duplication penalty never decreases as the percentage grows. -/
theorem specDuplicationPenalty_mono {q1 q2 : ℚ} (h : q1 ≤ q2) :
    specDuplicationPenalty q1 ≤ specDuplicationPenalty q2 := by
  unfold specDuplicationPenalty
  split_ifs <;> first | omega | linarith

/-- Claim C3: the Trust Score Engine is monotone in its penalty inputs:
between two TrustFactors that agree on all boolean fields, raising any
of the synthetic-face score, the generative-origin score or the
duplication percentage (and lowering none of them) never increases the
resulting score. -/
theorem trustScore_monotone_in_penalties (f1 f2 : TrustFactors)
    (h1 : f1.hashVerified = f2.hashVerified)
    (h2 : f1.signatureValid = f2.signatureValid)
    (h3 : f1.blockchainAnchored = f2.blockchainAnchored)
    (h4 : f1.hasMetadata = f2.hasMetadata)
    (hd : f1.deepfakeScore ≤ f2.deepfakeScore)
    (ha : f1.aiGeneratedScore ≤ f2.aiGeneratedScore)
    (hp : f1.plagiarismScore ≤ f2.plagiarismScore) :
    (computeTrustScore f2).score ≤ (computeTrustScore f1).score := by
  rw [computeTrustScore_score_eq, computeTrustScore_score_eq]
  unfold specClampedScore specBonusScore specRawScore
  rw [h1, h2, h3, h4]
  have m1 := specSyntheticPenalty_mono hd
  have m2 := specGenerativePenalty_mono ha
  have m3 := specDuplicationPenalty_mono hp
  split_ifs <;> omega

/-- Witness for claim C3: raising the synthetic-face score from 0.1 to
0.8, the generative-origin score from 0.1 to 0.5 and the duplication
percentage from 3 to 60 does not increase the score. -/
theorem trustScore_monotone_in_penalties_witness :
    (computeTrustScore ⟨true, true, true, 0.8, 0.5, 60, true⟩).score ≤
      (computeTrustScore ⟨true, true, true, 0.1, 0.1, 3, true⟩).score :=
  trustScore_monotone_in_penalties
    ⟨true, true, true, 0.1, 0.1, 3, true⟩ ⟨true, true, true, 0.8, 0.5, 60, true⟩
    rfl rfl rfl rfl (by norm_num) (by norm_num) (by norm_num)

/-- Claim C4 counterexample: when the underlying ledger call fails with
an insufficient-funds message, anchorProof does not return null — it
throws the faucet-advice Error, so the claim that it returns null and
never raises on every failure is false. -/
theorem anchorProof_throws_on_insufficient_funds :
    anchorProof (.failed "insufficient funds") = .error insufficientFundsError ∧
      anchorProof (.failed "insufficient funds") ≠ .ok none := by
  refine ⟨rfl, ?_⟩
  intro h
  simp [anchorProof] at h
  exact absurd h (by decide)

/-- Claim C4 as amended: anchorProof returns null, and does not raise,
on every failure whose message matches none of the insufficient-funds
patterns (network error, ledger rejection, ...); on an
insufficient-funds failure it instead raises the faucet-advice
Error. -/
theorem anchorProof_null_on_failures_except_insufficient_funds (msg : String) :
    (isInsufficientFundsMessage msg = false → anchorProof (.failed msg) = .ok none) ∧
    (isInsufficientFundsMessage msg = true →
      anchorProof (.failed msg) = .error insufficientFundsError) := by
  constructor <;> intro h <;> simp [anchorProof, h]

/-- Witness for the amended claim C4, at a network-error message and at
an insufficient-balance message. -/
theorem anchorProof_null_on_failures_except_insufficient_funds_witness :
    (isInsufficientFundsMessage "network request failed" = false ∧
      anchorProof (.failed "network request failed") = .ok none) ∧
    (isInsufficientFundsMessage "insufficient balance" = true ∧
      anchorProof (.failed "insufficient balance") = .error insufficientFundsError) :=
  ⟨⟨by decide, (anchorProof_null_on_failures_except_insufficient_funds
      "network request failed").1 (by decide)⟩,
   ⟨by decide, (anchorProof_null_on_failures_except_insufficient_funds
      "insufficient balance").2 (by decide)⟩⟩

/-- Claim C5 counterexample: the anchor client maps the duplicate-proof
ledger rejection to exactly the same null result as a generic network
failure — there is no distinct already-exists outcome and no reuse of
the existing transaction reference. -/
theorem anchorProof_conflates_duplicate_with_generic_failure :
    anchorProof (.failed "execution reverted: Proof already exists") =
      anchorProof (.failed "network request failed") ∧
    anchorProof (.failed "execution reverted: Proof already exists") = .ok none := ⟨rfl, rfl⟩

/-- Claim C5 as amended: resubmitting an anchored digest makes the
MediaProof contract revert with the reason Proof already exists and
leaves no second ledger entry (the proof count grows only by the first
call), but the anchor client surfaces that rejection as the same
generic null failure as a network error, with no distinct
already-exists outcome. -/
theorem duplicate_anchor_rejected_but_client_reports_generic_null
    (st : MediaProof.State) (h : ℕ) (sig pub sender sig2 pub2 sender2 : String)
    (ts bn ts2 bn2 : ℕ) (hh : h ≠ 0) (hts : ts ≠ 0)
    (hfresh : (st.proofs h).timestamp = 0) :
    ∃ st2, MediaProof.anchorProof st h sig pub sender ts bn = .ok st2 ∧
      MediaProof.anchorProof st2 h sig2 pub2 sender2 ts2 bn2 = .error "Proof already exists" ∧
      MediaProof.getProofCount st2 = MediaProof.getProofCount st + 1 ∧
      anchorProof (.failed "execution reverted: Proof already exists") =
        anchorProof (.failed "network request failed") := by
  refine ⟨⟨fun x =>
      if x = h then ⟨h, sig, pub, sender, ts, bn⟩ else st.proofs x,
      st.proofHashes ++ [h]⟩, ?_, ?_, ?_, rfl⟩
  · unfold MediaProof.anchorProof
    rw [if_neg hh, if_neg (by simp [hfresh])]
  · unfold MediaProof.anchorProof
    rw [if_neg hh, if_pos (by simp [hts])]
  · simp [MediaProof.getProofCount]

/-- Witness for the amended claim C5, anchoring digest 1 twice on a
fresh contract. -/
theorem duplicate_anchor_rejected_but_client_reports_generic_null_witness :
    ∃ st2, MediaProof.anchorProof MediaProof.initialState 1 "s" "p" "a" 100 5 = .ok st2 ∧
      MediaProof.anchorProof st2 1 "t" "q" "b" 101 6 = .error "Proof already exists" ∧
      MediaProof.getProofCount st2 = MediaProof.getProofCount MediaProof.initialState + 1 ∧
      anchorProof (.failed "execution reverted: Proof already exists") =
        anchorProof (.failed "network request failed") :=
  duplicate_anchor_rejected_but_client_reports_generic_null
    MediaProof.initialState 1 "s" "p" "a" "t" "q" "b" 100 5 101 6
    (by decide) (by decide) rfl

/-- Claim C7 counterexample: checkPlagiarism copies isOriginal and the
match percentage from the oracle response without relating them, so a
2xx body claiming isOriginal together with an 80 percent match yields a
result with isOriginal true and matchPercentage 80, violating
isOriginal = (matchPercentage < 20). -/
theorem checkPlagiarism_does_not_enforce_threshold :
    (checkPlagiarism (.ok c7CounterResponse) 0).isOriginal = true ∧
      20 ≤ (checkPlagiarism (.ok c7CounterResponse) 0).matchPercentage := by
  refine ⟨rfl, ?_⟩
  norm_num [checkPlagiarism, checkPlagiarismOnResponse, c7CounterResponse]

/-- Claim C7 as amended: the threshold rule isOriginal =
(matchPercentage < 20) is enforced by the backend plagiarism endpoint
(on the unrounded similarity score), not by the client; for every
response this repository's server produces (its random similarity draw
lies below 15) and for the client's simulated fallback, the result
returned by checkPlagiarism does satisfy
isOriginal = (matchPercentage < 20). -/
theorem checkPlagiarism_threshold_holds_for_repo_oracle (r rs : ℚ) (cid : String)
    (hr0 : 0 ≤ r) (hr1 : r < 1) (hs0 : 0 ≤ rs) (hs1 : rs < 1) :
    ((checkPlagiarism (.ok (serverPlagiarismResponse rs cid)) r).isOriginal = true ↔
      (checkPlagiarism (.ok (serverPlagiarismResponse rs cid)) r).matchPercentage < 20) ∧
    ((checkPlagiarism .failed r).isOriginal = true ↔
      (checkPlagiarism .failed r).matchPercentage < 20) := by
  have hserver_pct :
      (checkPlagiarism (.ok (serverPlagiarismResponse rs cid)) r).matchPercentage < 20 := by
    simp only [checkPlagiarism, checkPlagiarismOnResponse, serverPlagiarismResponse,
      Option.getD_some]
    have : round (rs * 15) < 20 := by
      rw [round_eq, Int.floor_lt]
      push_cast
      nlinarith
    exact_mod_cast this
  have hserver_orig :
      (checkPlagiarism (.ok (serverPlagiarismResponse rs cid)) r).isOriginal = true := by
    simp only [checkPlagiarism, checkPlagiarismOnResponse, serverPlagiarismResponse,
      Option.getD_some, decide_eq_true_eq]
    nlinarith
  have hsim_pct : (checkPlagiarism .failed r).matchPercentage < 20 := by
    simp only [checkPlagiarism, simulatePlagiarism]
    have : (⌊r * 5⌋ : ℤ) < 20 := by
      rw [Int.floor_lt]
      push_cast
      nlinarith
    exact_mod_cast this
  exact ⟨⟨fun _ => hserver_pct, fun _ => hserver_orig⟩, ⟨fun _ => hsim_pct, fun _ => rfl⟩⟩

/-- Witness for the amended claim C7, at random draws one half and one
third. -/
theorem checkPlagiarism_threshold_holds_for_repo_oracle_witness :
    ((0:ℚ) ≤ 1/2 ∧ (1/2:ℚ) < 1 ∧ (0:ℚ) ≤ 1/3 ∧ (1/3:ℚ) < 1) ∧
    (((checkPlagiarism (.ok (serverPlagiarismResponse (1/3) "c")) (1/2)).isOriginal = true ↔
      (checkPlagiarism (.ok (serverPlagiarismResponse (1/3) "c")) (1/2)).matchPercentage < 20) ∧
    ((checkPlagiarism .failed (1/2)).isOriginal = true ↔
      (checkPlagiarism .failed (1/2)).matchPercentage < 20)) :=
  ⟨⟨by norm_num, by norm_num, by norm_num, by norm_num⟩,
    checkPlagiarism_threshold_holds_for_repo_oracle (1/2) (1/3) "c"
      (by norm_num) (by norm_num) (by norm_num) (by norm_num)⟩

/-- The two characters of one hex-encoded byte. -/
theorem byteToHex_data (b : ℕ) :
    (byteToHex b).data = [hexDigitChar (b / 16 % 16), hexDigitChar (b % 16)] := rfl

/-- Hex encoding of a byte list, unfolded one byte. -/
theorem uint8ArrayToHex_data_cons (b : ℕ) (t : List ℕ) :
    (uint8ArrayToHex (b :: t)).data = (byteToHex b).data ++ (uint8ArrayToHex t).data := by
  simp [uint8ArrayToHex, String.data_join]

/-- Hex encoding doubles the length. -/
theorem uint8ArrayToHex_length (l : List ℕ) :
    (uint8ArrayToHex l).length = 2 * l.length := by
  induction l with
  | nil => rfl
  | cons b t ih =>
    rw [String.length] at *
    rw [uint8ArrayToHex_data_cons, List.length_append, byteToHex_data, ih]
    simp
    omega

/-- The sixteen hex digit characters are lowercase hexadecimal. -/
theorem hexDigitChar_lower (n : ℕ) (h : n < 16) :
    isLowerHexDigit (hexDigitChar n) = true := by
  interval_cases n <;> decide

/-- Every character of a hex encoding is lowercase hexadecimal. -/
theorem uint8ArrayToHex_lower (l : List ℕ) :
    (uint8ArrayToHex l).data.all isLowerHexDigit = true := by
  induction l with
  | nil => rfl
  | cons b t ih =>
    rw [uint8ArrayToHex_data_cons, List.all_append, byteToHex_data]
    simp only [List.all_cons, List.all_nil, Bool.and_true, Bool.and_eq_true]
    exact ⟨⟨hexDigitChar_lower _ (Nat.mod_lt _ (by norm_num)),
      hexDigitChar_lower _ (Nat.mod_lt _ (by norm_num))⟩, ih⟩

/-- Claim C9: for any 256-bit digest collaborator and any fixed byte
sequence, hashMediaFile returns the same digest string on every call
(in particular on both its primary and its fallback path, which read
the same raw bytes), and that string is a lowercase hexadecimal string
of exactly 64 characters. -/
theorem hashMediaFile_deterministic_fixed_format
    (digest : List ℕ → List ℕ) (bytes : List ℕ)
    (hlen : (digest bytes).length = 32)
    (hbytes : ∀ x ∈ digest bytes, x < 256) :
    (∀ p1 p2 : Bool, hashMediaFile digest p1 bytes = hashMediaFile digest p2 bytes) ∧
    (hashMediaFile digest true bytes).length = 64 ∧
    (hashMediaFile digest true bytes).data.all isLowerHexDigit = true := by
  refine ⟨?_, ?_, ?_⟩
  · intro p1 p2
    cases p1 <;> cases p2 <;> rfl
  · show (uint8ArrayToHex (digest bytes)).length = 64
    rw [uint8ArrayToHex_length, hlen]
  · exact uint8ArrayToHex_lower (digest bytes)

/-- Witness for claim C9, at a constant 32-byte digest function and the
byte sequence 0, 1, 2. -/
theorem hashMediaFile_deterministic_fixed_format_witness :
    (constDigest [0, 1, 2]).length = 32 ∧
    (hashMediaFile constDigest true [0, 1, 2] = hashMediaFile constDigest false [0, 1, 2] ∧
      (hashMediaFile constDigest true [0, 1, 2]).length = 64 ∧
      (hashMediaFile constDigest true [0, 1, 2]).data.all isLowerHexDigit = true) :=
  ⟨by decide,
    (hashMediaFile_deterministic_fixed_format constDigest [0, 1, 2]
      (by decide) (by decide)).1 true false,
    (hashMediaFile_deterministic_fixed_format constDigest [0, 1, 2]
      (by decide) (by decide)).2.1,
    (hashMediaFile_deterministic_fixed_format constDigest [0, 1, 2]
      (by decide) (by decide)).2.2⟩

/-! ### Pipeline orchestrator theorems -/

/-- updateStep never changes the ids of the step list. -/
theorem map_id_updateStep (steps : List VerificationStep) (stepId : String)
    (st : StepStatus) (d : Option String) :
    (updateStep steps stepId st d).map (fun s => s.id) = steps.map (fun s => s.id) := by
  induction steps with
  | nil => rfl
  | cons a t ih =>
    simp only [updateStep, List.map] at *
    rw [ih]
    split_ifs <;> simp

/-- The statuses after updateStep, as a function of the previous ids
and statuses. -/
theorem map_status_updateStep (steps : List VerificationStep) (stepId : String)
    (st : StepStatus) (d : Option String) :
    (updateStep steps stepId st d).map (fun s => s.status) =
      List.zipWith (fun id prev => if id = stepId then st else prev)
        (steps.map fun s => s.id) (steps.map fun s => s.status) := by
  induction steps with
  | nil => rfl
  | cons a t ih =>
    simp only [updateStep, List.map, List.zipWith] at *
    rw [ih]
    split_ifs <;> simp

/-- Status projection of a one-snapshot trace. -/
theorem statusTrace_one (a : List VerificationStep) :
    List.map (fun l => List.map (fun s => s.status) l) [a] =
      [a.map (fun s => s.status)] := rfl

/-- Status projection of a three-snapshot trace. -/
theorem statusTrace_three (a b c : List VerificationStep) :
    List.map (fun l => List.map (fun s => s.status) l) [a, b, c] =
      [a.map (fun s => s.status), b.map (fun s => s.status), c.map (fun s => s.status)] := rfl

/-- Status projection of a sixteen-snapshot trace. -/
theorem statusTrace_sixteen (a b c d e f g h i j k l m n o p : List VerificationStep) :
    List.map (fun l2 => List.map (fun s => s.status) l2)
        [a, b, c, d, e, f, g, h, i, j, k, l, m, n, o, p] =
      [a.map (fun s => s.status), b.map (fun s => s.status), c.map (fun s => s.status),
       d.map (fun s => s.status), e.map (fun s => s.status), f.map (fun s => s.status),
       g.map (fun s => s.status), h.map (fun s => s.status), i.map (fun s => s.status),
       j.map (fun s => s.status), k.map (fun s => s.status), l.map (fun s => s.status),
       m.map (fun s => s.status), n.map (fun s => s.status), o.map (fun s => s.status),
       p.map (fun s => s.status)] := rfl

/-- The statuses of the freshly created step list. -/
theorem createSteps_status : createSteps.map (fun s => s.status) =
    [.waiting, .waiting, .waiting, .waiting, .waiting, .waiting, .waiting, .waiting] := rfl

/-- The ids of the step list are invariant (stage 1). -/
theorem steps1_ids :
    (steps1).map (fun s => s.id) =
      ["hash", "sign", "blockchain", "ai", "plagiarism", "trust", "watermark", "cloud"] := by
  rw [steps1, map_id_updateStep]
  rfl

/-- The statuses of the step list after stage 1. -/
theorem steps1_status :
    (steps1).map (fun s => s.status) =
      [.running,
       .waiting,
       .waiting,
       .waiting,
       .waiting,
       .waiting,
       .waiting,
       .waiting] := by
  rw [steps1, map_status_updateStep]
  rfl

/-- The ids of the step list are invariant (stage 2). -/
theorem steps2_ids (fh : String) :
    (steps2 fh).map (fun s => s.id) =
      ["hash", "sign", "blockchain", "ai", "plagiarism", "trust", "watermark", "cloud"] := by
  rw [steps2, map_id_updateStep, steps1_ids]

/-- The statuses of the step list after stage 2. -/
theorem steps2_status (fh : String) :
    (steps2 fh).map (fun s => s.status) =
      [.success,
       .waiting,
       .waiting,
       .waiting,
       .waiting,
       .waiting,
       .waiting,
       .waiting] := by
  rw [steps2, map_status_updateStep, steps1_ids, steps1_status]
  rfl

/-- The ids of the step list are invariant (stage 3). -/
theorem steps3_ids (fh : String) :
    (steps3 fh).map (fun s => s.id) =
      ["hash", "sign", "blockchain", "ai", "plagiarism", "trust", "watermark", "cloud"] := by
  rw [steps3, map_id_updateStep, steps2_ids]

/-- The statuses of the step list after stage 3. -/
theorem steps3_status (fh : String) :
    (steps3 fh).map (fun s => s.status) =
      [.success,
       .running,
       .waiting,
       .waiting,
       .waiting,
       .waiting,
       .waiting,
       .waiting] := by
  rw [steps3, map_status_updateStep, steps2_ids, steps2_status]
  rfl

/-- The ids of the step list are invariant (stage 4). -/
theorem steps4_ids (fh : String) :
    (steps4 fh).map (fun s => s.id) =
      ["hash", "sign", "blockchain", "ai", "plagiarism", "trust", "watermark", "cloud"] := by
  rw [steps4, map_id_updateStep, steps3_ids]

/-- The statuses of the step list after stage 4. -/
theorem steps4_status (fh : String) :
    (steps4 fh).map (fun s => s.status) =
      [.success,
       .success,
       .waiting,
       .waiting,
       .waiting,
       .waiting,
       .waiting,
       .waiting] := by
  rw [steps4, map_status_updateStep, steps3_ids, steps3_status]
  rfl

/-- The ids of the step list are invariant (stage 5). -/
theorem steps5_ids (fh : String) :
    (steps5 fh).map (fun s => s.id) =
      ["hash", "sign", "blockchain", "ai", "plagiarism", "trust", "watermark", "cloud"] := by
  rw [steps5, map_id_updateStep, steps4_ids]

/-- The statuses of the step list after stage 5. -/
theorem steps5_status (fh : String) :
    (steps5 fh).map (fun s => s.status) =
      [.success,
       .success,
       .running,
       .waiting,
       .waiting,
       .waiting,
       .waiting,
       .waiting] := by
  rw [steps5, map_status_updateStep, steps4_ids, steps4_status]
  rfl

/-- The ids of the step list are invariant (stage 6). -/
theorem steps6_ids (fh : String) (aC : Except String (Option TxResult)) :
    (steps6 fh aC).map (fun s => s.id) =
      ["hash", "sign", "blockchain", "ai", "plagiarism", "trust", "watermark", "cloud"] := by
  cases aC with
  | error e => rw [steps6, map_id_updateStep, steps5_ids]
  | ok o => cases o <;> rw [steps6, map_id_updateStep, steps5_ids]

/-- The statuses of the step list after stage 6. -/
theorem steps6_status (fh : String) (aC : Except String (Option TxResult)) :
    (steps6 fh aC).map (fun s => s.status) =
      [.success,
       .success,
       (match aC with | .ok (some _) => .success | _ => .error),
       .waiting,
       .waiting,
       .waiting,
       .waiting,
       .waiting] := by
  cases aC with
  | error e =>
    rw [steps6, map_status_updateStep, steps5_ids, steps5_status]
    rfl
  | ok o =>
    cases o <;> rw [steps6, map_status_updateStep, steps5_ids, steps5_status] <;> rfl

/-- The ids of the step list are invariant (stage 7). -/
theorem steps7_ids (fh : String) (aC : Except String (Option TxResult)) :
    (steps7 fh aC).map (fun s => s.id) =
      ["hash", "sign", "blockchain", "ai", "plagiarism", "trust", "watermark", "cloud"] := by
  rw [steps7, map_id_updateStep, steps6_ids]

/-- The statuses of the step list after stage 7. -/
theorem steps7_status (fh : String) (aC : Except String (Option TxResult)) :
    (steps7 fh aC).map (fun s => s.status) =
      [.success,
       .success,
       (match aC with | .ok (some _) => .success | _ => .error),
       .running,
       .waiting,
       .waiting,
       .waiting,
       .waiting] := by
  rw [steps7, map_status_updateStep, steps6_ids, steps6_status]
  rfl

/-- The ids of the step list are invariant (stage 8). -/
theorem steps8_ids (fh : String) (aC : Except String (Option TxResult)) (ai : AIDetectionResult) :
    (steps8 fh aC ai).map (fun s => s.id) =
      ["hash", "sign", "blockchain", "ai", "plagiarism", "trust", "watermark", "cloud"] := by
  rw [steps8, map_id_updateStep, steps7_ids]

/-- The statuses of the step list after stage 8. -/
theorem steps8_status (fh : String) (aC : Except String (Option TxResult)) (ai : AIDetectionResult) :
    (steps8 fh aC ai).map (fun s => s.status) =
      [.success,
       .success,
       (match aC with | .ok (some _) => .success | _ => .error),
       (if ai.simulated then .error else .success),
       .waiting,
       .waiting,
       .waiting,
       .waiting] := by
  rw [steps8, map_status_updateStep, steps7_ids, steps7_status]
  rfl

/-- The ids of the step list are invariant (stage 9). -/
theorem steps9_ids (fh : String) (aC : Except String (Option TxResult)) (ai : AIDetectionResult) :
    (steps9 fh aC ai).map (fun s => s.id) =
      ["hash", "sign", "blockchain", "ai", "plagiarism", "trust", "watermark", "cloud"] := by
  rw [steps9, map_id_updateStep, steps8_ids]

/-- The statuses of the step list after stage 9. -/
theorem steps9_status (fh : String) (aC : Except String (Option TxResult)) (ai : AIDetectionResult) :
    (steps9 fh aC ai).map (fun s => s.status) =
      [.success,
       .success,
       (match aC with | .ok (some _) => .success | _ => .error),
       (if ai.simulated then .error else .success),
       .running,
       .waiting,
       .waiting,
       .waiting] := by
  rw [steps9, map_status_updateStep, steps8_ids, steps8_status]
  rfl

/-- The ids of the step list are invariant (stage 10). -/
theorem steps10_ids (fh : String) (aC : Except String (Option TxResult)) (ai : AIDetectionResult) (plag : PlagiarismResult) :
    (steps10 fh aC ai plag).map (fun s => s.id) =
      ["hash", "sign", "blockchain", "ai", "plagiarism", "trust", "watermark", "cloud"] := by
  rw [steps10, map_id_updateStep, steps9_ids]

/-- The statuses of the step list after stage 10. -/
theorem steps10_status (fh : String) (aC : Except String (Option TxResult)) (ai : AIDetectionResult) (plag : PlagiarismResult) :
    (steps10 fh aC ai plag).map (fun s => s.status) =
      [.success,
       .success,
       (match aC with | .ok (some _) => .success | _ => .error),
       (if ai.simulated then .error else .success),
       (if plag.simulated then .error else .success),
       .waiting,
       .waiting,
       .waiting] := by
  rw [steps10, map_status_updateStep, steps9_ids, steps9_status]
  rfl

/-- The ids of the step list are invariant (stage 11). -/
theorem steps11_ids (fh : String) (aC : Except String (Option TxResult)) (ai : AIDetectionResult) (plag : PlagiarismResult) :
    (steps11 fh aC ai plag).map (fun s => s.id) =
      ["hash", "sign", "blockchain", "ai", "plagiarism", "trust", "watermark", "cloud"] := by
  rw [steps11, map_id_updateStep, steps10_ids]

/-- The statuses of the step list after stage 11. -/
theorem steps11_status (fh : String) (aC : Except String (Option TxResult)) (ai : AIDetectionResult) (plag : PlagiarismResult) :
    (steps11 fh aC ai plag).map (fun s => s.status) =
      [.success,
       .success,
       (match aC with | .ok (some _) => .success | _ => .error),
       (if ai.simulated then .error else .success),
       (if plag.simulated then .error else .success),
       .running,
       .waiting,
       .waiting] := by
  rw [steps11, map_status_updateStep, steps10_ids, steps10_status]
  rfl

/-- The ids of the step list are invariant (stage 12). -/
theorem steps12_ids (fh : String) (aC : Except String (Option TxResult)) (ai : AIDetectionResult) (plag : PlagiarismResult) :
    (steps12 fh aC ai plag).map (fun s => s.id) =
      ["hash", "sign", "blockchain", "ai", "plagiarism", "trust", "watermark", "cloud"] := by
  rw [steps12, map_id_updateStep, steps11_ids]

/-- The statuses of the step list after stage 12. -/
theorem steps12_status (fh : String) (aC : Except String (Option TxResult)) (ai : AIDetectionResult) (plag : PlagiarismResult) :
    (steps12 fh aC ai plag).map (fun s => s.status) =
      [.success,
       .success,
       (match aC with | .ok (some _) => .success | _ => .error),
       (if ai.simulated then .error else .success),
       (if plag.simulated then .error else .success),
       .success,
       .waiting,
       .waiting] := by
  rw [steps12, map_status_updateStep, steps11_ids, steps11_status]
  rfl

/-- The ids of the step list are invariant (stage 13). -/
theorem steps13_ids (fh : String) (aC : Except String (Option TxResult)) (ai : AIDetectionResult) (plag : PlagiarismResult) :
    (steps13 fh aC ai plag).map (fun s => s.id) =
      ["hash", "sign", "blockchain", "ai", "plagiarism", "trust", "watermark", "cloud"] := by
  rw [steps13, map_id_updateStep, steps12_ids]

/-- The statuses of the step list after stage 13. -/
theorem steps13_status (fh : String) (aC : Except String (Option TxResult)) (ai : AIDetectionResult) (plag : PlagiarismResult) :
    (steps13 fh aC ai plag).map (fun s => s.status) =
      [.success,
       .success,
       (match aC with | .ok (some _) => .success | _ => .error),
       (if ai.simulated then .error else .success),
       (if plag.simulated then .error else .success),
       .success,
       .running,
       .waiting] := by
  rw [steps13, map_status_updateStep, steps12_ids, steps12_status]
  rfl

/-- The ids of the step list are invariant (stage 14). -/
theorem steps14_ids (fh : String) (aC : Except String (Option TxResult)) (ai : AIDetectionResult) (plag : PlagiarismResult) (wmId : String) :
    (steps14 fh aC ai plag wmId).map (fun s => s.id) =
      ["hash", "sign", "blockchain", "ai", "plagiarism", "trust", "watermark", "cloud"] := by
  rw [steps14, map_id_updateStep, steps13_ids]

/-- The statuses of the step list after stage 14. -/
theorem steps14_status (fh : String) (aC : Except String (Option TxResult)) (ai : AIDetectionResult) (plag : PlagiarismResult) (wmId : String) :
    (steps14 fh aC ai plag wmId).map (fun s => s.status) =
      [.success,
       .success,
       (match aC with | .ok (some _) => .success | _ => .error),
       (if ai.simulated then .error else .success),
       (if plag.simulated then .error else .success),
       .success,
       .success,
       .waiting] := by
  rw [steps14, map_status_updateStep, steps13_ids, steps13_status]
  rfl

/-- The ids of the step list are invariant (stage 15). -/
theorem steps15_ids (fh : String) (aC : Except String (Option TxResult)) (ai : AIDetectionResult) (plag : PlagiarismResult) (wmId : String) :
    (steps15 fh aC ai plag wmId).map (fun s => s.id) =
      ["hash", "sign", "blockchain", "ai", "plagiarism", "trust", "watermark", "cloud"] := by
  rw [steps15, map_id_updateStep, steps14_ids]

/-- The statuses of the step list after stage 15. -/
theorem steps15_status (fh : String) (aC : Except String (Option TxResult)) (ai : AIDetectionResult) (plag : PlagiarismResult) (wmId : String) :
    (steps15 fh aC ai plag wmId).map (fun s => s.status) =
      [.success,
       .success,
       (match aC with | .ok (some _) => .success | _ => .error),
       (if ai.simulated then .error else .success),
       (if plag.simulated then .error else .success),
       .success,
       .success,
       .running] := by
  rw [steps15, map_status_updateStep, steps14_ids, steps14_status]
  rfl

/-- The ids of the step list are invariant (stage 16). -/
theorem steps16_ids (fh : String) (aC : Except String (Option TxResult)) (ai : AIDetectionResult) (plag : PlagiarismResult) (wmId : String) (cloud : Bool) :
    (steps16 fh aC ai plag wmId cloud).map (fun s => s.id) =
      ["hash", "sign", "blockchain", "ai", "plagiarism", "trust", "watermark", "cloud"] := by
  rw [steps16, map_id_updateStep, steps15_ids]

/-- The statuses of the step list after stage 16. -/
theorem steps16_status (fh : String) (aC : Except String (Option TxResult)) (ai : AIDetectionResult) (plag : PlagiarismResult) (wmId : String) (cloud : Bool) :
    (steps16 fh aC ai plag wmId cloud).map (fun s => s.status) =
      [.success,
       .success,
       (match aC with | .ok (some _) => .success | _ => .error),
       (if ai.simulated then .error else .success),
       (if plag.simulated then .error else .success),
       .success,
       .success,
       (if cloud then .success else .error)] := by
  rw [steps16, map_status_updateStep, steps15_ids, steps15_status]
  rfl

/-- Claim C8: every run starts from exactly eight named steps, all
waiting, and across the initial step list and every snapshot delivered
to the progress observer, each snapshot has eight entries with at most
one running step, and steps only ever transition
waiting to running to success or error, never regressing. -/
theorem pipeline_step_trace_invariants (env : PipelineEnv) :
    createSteps.length = 8 ∧
    (createSteps.all fun s => s.status == .waiting) = true ∧
    (createSteps.map fun s => s.id) =
      ["hash", "sign", "blockchain", "ai", "plagiarism", "trust", "watermark", "cloud"] ∧
    traceOk ((createSteps.map fun s => s.status) ::
      statusTrace (runVerificationPipeline env)) = true := by
  refine ⟨rfl, rfl, rfl, ?_⟩
  rcases env with ⟨uri, ft, size, rid, sAt, fAt, ts, dev, hashC, signC, pkC, anchorC,
    b64C, ai, plag, wm, wmId, thumbC, cloud⟩
  rcases ai with ⟨d, g, gen, sim⟩
  rcases plag with ⟨orig, mp, srcs, psim⟩
  cases hashC with
  | error e1 =>
    simp only [runVerificationPipeline, pipelineFailure, statusTrace]
    rw [statusTrace_one, steps1_status, createSteps_status]
    decide
  | ok v1 =>
    cases signC with
    | error e2 =>
      simp only [runVerificationPipeline, pipelineFailure, statusTrace]
      rw [statusTrace_three, steps1_status, steps2_status, steps3_status, createSteps_status]
      decide
    | ok v2 =>
      cases pkC with
      | error e3 =>
        simp only [runVerificationPipeline, pipelineFailure, statusTrace]
        rw [statusTrace_three, steps1_status, steps2_status, steps3_status, createSteps_status]
        decide
      | ok v3 =>
        simp only [runVerificationPipeline, statusTrace]
        rw [statusTrace_sixteen, steps1_status, steps2_status, steps3_status,
          steps4_status, steps5_status, steps6_status, steps7_status, steps8_status,
          steps9_status, steps10_status, steps11_status, steps12_status, steps13_status,
          steps14_status, steps15_status, steps16_status, createSteps_status]
        cases anchorC with
        | error e4 => cases sim <;> cases psim <;> cases cloud <;> norm_num <;> decide
        | ok o => cases o <;> cases sim <;> cases psim <;> cases cloud <;> norm_num <;> decide

/-- Claim C6: when one of the stages whose rejection reaches the
orchestrator (hash, sign, public key) rejects, the run re-throws that
very error and its last persistence call is the status-only failed
update; when none of them rejects, the run returns a record with status
verified — whatever the anchor, oracle, thumbnail or cloud-sync
outcomes were — and its last persistence call stores exactly that
record. -/
theorem pipeline_failure_and_success_persistence (env : PipelineEnv) :
    (∀ e, firstStageError env = some e →
      (runVerificationPipeline env).result = .error e ∧
      (runVerificationPipeline env).dbWrites =
        [.insert (initialRecord env), .updateStatus env.recordId .failed]) ∧
    (firstStageError env = none →
      ∃ r, (runVerificationPipeline env).result = .ok r ∧ r.status = .verified ∧
        (runVerificationPipeline env).dbWrites =
          [.insert (initialRecord env), .update env.recordId r]) := by
  constructor
  · intro e he
    cases hhash : env.hashCall with
    | error e1 =>
      simp only [firstStageError, hhash] at he
      cases he
      simp [runVerificationPipeline, hhash, pipelineFailure]
    | ok v1 =>
      cases hsign : env.signCall with
      | error e2 =>
        simp only [firstStageError, hhash, hsign] at he
        cases he
        simp [runVerificationPipeline, hhash, hsign, pipelineFailure]
      | ok v2 =>
        cases hpk : env.publicKeyCall with
        | error e3 =>
          simp only [firstStageError, hhash, hsign, hpk] at he
          cases he
          simp [runVerificationPipeline, hhash, hsign, hpk, pipelineFailure]
        | ok v3 =>
          simp [firstStageError, hhash, hsign, hpk] at he
  · intro he
    cases hhash : env.hashCall with
    | error e1 => simp [firstStageError, hhash] at he
    | ok v1 =>
      cases hsign : env.signCall with
      | error e2 => simp [firstStageError, hhash, hsign] at he
      | ok v2 =>
        cases hpk : env.publicKeyCall with
        | error e3 => simp [firstStageError, hhash, hsign, hpk] at he
        | ok v3 =>
          simp only [runVerificationPipeline, hhash, hsign, hpk]
          exact ⟨_, rfl, rfl, rfl⟩

/-- Witness for claim C6: a run whose signing stage rejects re-throws
and persists failed; a run with no stage rejection returns a verified
record and persists it. -/
theorem pipeline_failure_and_success_persistence_witness :
    (firstStageError envSignFails = some "No private key found. Generate keys first." ∧
      (runVerificationPipeline envSignFails).result =
        .error "No private key found. Generate keys first." ∧
      (runVerificationPipeline envSignFails).dbWrites =
        [.insert (initialRecord envSignFails), .updateStatus envSignFails.recordId .failed]) ∧
    (firstStageError envAllOk = none ∧
      ∃ r, (runVerificationPipeline envAllOk).result = .ok r ∧ r.status = .verified ∧
        (runVerificationPipeline envAllOk).dbWrites =
          [.insert (initialRecord envAllOk), .update envAllOk.recordId r]) :=
  ⟨⟨rfl,
    ((pipeline_failure_and_success_persistence envSignFails).1
      "No private key found. Generate keys first." rfl).1,
    ((pipeline_failure_and_success_persistence envSignFails).1
      "No private key found. Generate keys first." rfl).2⟩,
   ⟨rfl, (pipeline_failure_and_success_persistence envAllOk).2 rfl⟩⟩

/-- The trust score of the factors the pipeline builds is at least 2:
with the hash, signature and metadata flags fixed to true, the worst
case is 100 - 10 - 40 - 30 - 20 = 0 raised to 2 by the metadata
bonus. -/
theorem two_le_pipelineTrustFactors_score (a : Bool) (ai : AIDetectionResult)
    (plag : PlagiarismResult) :
    2 ≤ (computeTrustScore (pipelineTrustFactors a ai plag)).score := by
  rw [computeTrustScore_score_eq]
  have h1 : 0 ≤ specSyntheticPenalty ai.deepfakeScore ∧
      specSyntheticPenalty ai.deepfakeScore ≤ 40 := by
    unfold specSyntheticPenalty; split_ifs <;> omega
  have h2 : 0 ≤ specGenerativePenalty ai.aiGeneratedScore ∧
      specGenerativePenalty ai.aiGeneratedScore ≤ 30 := by
    unfold specGenerativePenalty; split_ifs <;> omega
  have h3 : 0 ≤ specDuplicationPenalty plag.matchPercentage ∧
      specDuplicationPenalty plag.matchPercentage ≤ 20 := by
    unfold specDuplicationPenalty; split_ifs <;> omega
  unfold specClampedScore specBonusScore specRawScore pipelineTrustFactors
  cases a <;> simp <;> omega

/-- Claim C10: the factors the pipeline passes to the Trust Score
Engine always carry hashVerified, signatureValid and hasMetadata fixed
to the literal true — so the hash and signature penalties are never
applied in a pipeline run and the metadata bonus always is — and the
trust score of every record a run returns is at least 2. -/
theorem pipeline_trust_factors_fixed_and_score_at_least_two (env : PipelineEnv) :
    (∀ (a : Bool) (ai : AIDetectionResult) (plag : PlagiarismResult),
      (pipelineTrustFactors a ai plag).hashVerified = true ∧
      (pipelineTrustFactors a ai plag).signatureValid = true ∧
      (pipelineTrustFactors a ai plag).hasMetadata = true ∧
      2 ≤ (computeTrustScore (pipelineTrustFactors a ai plag)).score) ∧
    (match (runVerificationPipeline env).result with
      | .ok r => 2 ≤ r.trustScore
      | .error _ => True) := by
  constructor
  · intro a ai plag
    exact ⟨rfl, rfl, rfl, two_le_pipelineTrustFactors_score a ai plag⟩
  · cases hhash : env.hashCall with
    | error e1 => simp [runVerificationPipeline, hhash, pipelineFailure]
    | ok v1 =>
      cases hsign : env.signCall with
      | error e2 => simp [runVerificationPipeline, hhash, hsign, pipelineFailure]
      | ok v2 =>
        cases hpk : env.publicKeyCall with
        | error e3 => simp [runVerificationPipeline, hhash, hsign, hpk, pipelineFailure]
        | ok v3 =>
          simp only [runVerificationPipeline, hhash, hsign, hpk]
          exact two_le_pipelineTrustFactors_score _ _ _

end ProofSnap

